import Mathlib

/-!
Verification development for the `Application` module of a project-scaffolding
CLI tool (`src/Application.js`).  The module resolves a package identifier to a
fixed directory layout, validates or creates that layout, and wires up an
output-routing facade.  We shallowly embed the constructor's control flow, the
path computations, and the property setters, together with models of the
external collaborators (Node's posix `path` functions, the ShellJS filesystem
primitives, the package-id validator, and the output sinks), and prove the
specified properties about them.
-/

set_option autoImplicit false

namespace CrosswalkApp

/-! ## Model of Node's posix `path` functions

`Application.js` calls `Path.resolve`, `Path.normalize`, `Path.basename`,
`Path.dirname`, `Path.join` and uses `Path.sep`.  These are embedded below
following the Node.js posix implementations segment by segment. -/

/-- Split a character list on `/`, keeping empty segments, as
`"…".split("/")` does in JS (the segment walk inside Node's
`normalizeString`).  `acc` holds the current segment reversed. -/
def splitSlashAux : List Char → List Char → List (List Char)
  | [], acc => [acc.reverse]
  | c :: cs, acc =>
    if c = '/' then acc.reverse :: splitSlashAux cs []
    else splitSlashAux cs (c :: acc)

/-- Core of Node's `normalizeString`: fold path segments left to right,
dropping empty and `"."` segments, resolving `".."` against the accumulator
(kept in reverse order), and keeping `".."` segments only when
`allowAboveRoot` is set (i.e. for relative paths). -/
def normSegsAux (allowAboveRoot : Bool) : List (List Char) → List (List Char) → List (List Char)
  | acc, [] => acc.reverse
  | acc, seg :: rest =>
    if seg = [] ∨ seg = ['.'] then
      normSegsAux allowAboveRoot acc rest
    else if seg = ['.', '.'] then
      match acc with
      | [] => normSegsAux allowAboveRoot (if allowAboveRoot then [['.', '.']] else []) rest
      | top :: accTl =>
        if top = ['.', '.'] then
          normSegsAux allowAboveRoot (if allowAboveRoot then ['.', '.'] :: acc else acc) rest
        else
          normSegsAux allowAboveRoot accTl rest
    else
      normSegsAux allowAboveRoot (seg :: acc) rest

/-- Join segments with `/` (Node's `res += '/' + segment` accumulation). -/
def joinSlash : List (List Char) → List Char
  | [] => []
  | [s] => s
  | s :: rest => s ++ '/' :: joinSlash rest

/-- Does the character list start with `/` (Node's
`charCodeAt(0) === CHAR_FORWARD_SLASH`). -/
def startsWithSlash : List Char → Bool
  | '/' :: _ => true
  | _ => false

/-- Does the character list end with `/`. -/
def endsWithSlash (l : List Char) : Bool :=
  startsWithSlash l.reverse

/-- Node's `normalizeString` on character lists: split on `/`, normalise the
segments, join the survivors with `/`. -/
def normalizeStringChars (l : List Char) (allowAboveRoot : Bool) : List Char :=
  joinSlash (normSegsAux allowAboveRoot [] (splitSlashAux l []))

/-- Node's posix `path.normalize`: empty input maps to `"."`; otherwise
segment-normalise, restore a leading slash for absolute paths and a trailing
slash when the input had one and the result is nonempty. -/
def normalize (p : String) : String :=
  if p.data = [] then "."
  else
    let isAbs := startsWithSlash p.data
    let trailingSep := endsWithSlash p.data
    let core0 := normalizeStringChars p.data (!isAbs)
    let core1 := if core0 = [] ∧ ¬ isAbs then ['.'] else core0
    let core2 := if core1 ≠ [] ∧ trailingSep then core1 ++ ['/'] else core1
    if isAbs then String.mk ('/' :: core2) else String.mk core2

/-- Node's posix `path.resolve` for a single argument, with the process
working directory `procCwd` supplied explicitly (Node consults
`process.cwd()` when the argument is not absolute).  The result is always
fully normalised and never keeps a trailing slash. -/
def resolve (procCwd p : String) : String :=
  let joined := if startsWithSlash p.data then p.data
                else if p.data = [] then procCwd.data
                else procCwd.data ++ '/' :: p.data
  if startsWithSlash joined then
    String.mk ('/' :: normalizeStringChars joined false)
  else
    let core := normalizeStringChars joined true
    if core = [] then "." else String.mk core

/-- Node's posix `path.basename` (no extension argument): strip trailing
slashes, then return the final segment. -/
def basename (p : String) : String :=
  String.mk (((p.data.reverse.dropWhile (fun c => c == '/')).takeWhile
      (fun c => c != '/')).reverse)

/-- Result assembly for `dirname`: `r` is the reversed remainder of the path
after stripping trailing slashes and the final segment (so its head, when
present, is the slash that ended the parent prefix, Node's `end` position),
and `hasRoot` records a leading `/` in the input. -/
def dirnameAux (hasRoot : Bool) (r : List Char) : String :=
  if r.isEmpty then (if hasRoot then "/" else ".")
  else
    if r.tail.isEmpty then "/"
    else if hasRoot ∧ r.tail = ['/'] then "//"
    else String.mk r.tail.reverse

/-- Node's posix `path.dirname`: everything before the last slash that
precedes the final segment, with Node's special cases for root, `"//"`, and
slashless inputs. -/
def dirname (p : String) : String :=
  if p = "" then "."
  else
    dirnameAux (startsWithSlash p.data)
      ((p.data.reverse.dropWhile (fun c => c == '/')).dropWhile (fun c => c != '/'))

/-- `Path.sep` on posix. -/
def sep : String := "/"

/-- Node's posix `path.join` for two arguments: empty parts are skipped, the
parts are joined with `/`, and the result is normalised (`"."` when both
parts are empty). -/
def pathJoin (a b : String) : String :=
  let joined := if a = "" then b else if b = "" then a else a ++ "/" ++ b
  if joined = "" then "." else normalize joined

/-! ## Model of the filesystem and the ShellJS primitives

`Application.js` uses `ShellJS.test("-d", p)`, `ShellJS.mkdir(p)` and
`ShellJS.rm("-f", p)`.  A filesystem state is the set of existing directories
and files, stored as canonical absolute path strings.  The OS resolves `"."`,
`".."` and redundant or trailing slashes when a path is passed to
`stat`/`mkdir`/`unlink`, which we model by canonicalising with `resolve`
before consulting the state. -/

/-- Canonical form of a path as the OS kernel sees it: fully resolved, no
trailing slash (modelled with Node's `resolve` from root). -/
def canon (p : String) : String := resolve "/" p

/-- Filesystem state: the directories and files that exist, as canonical
path strings. -/
structure FileSystem where
  dirs : List String
  files : List String
deriving DecidableEq

/-- Model of `ShellJS.test("-d", p)`: does `p` exist as a directory. -/
def testDir (fs : FileSystem) (p : String) : Bool :=
  decide (canon p ∈ fs.dirs)

/-- Model of `ShellJS.mkdir(p)` (non-recursive) in the uses made by
`Application.js`, where the parent always exists and `p` does not. -/
def mkdir (fs : FileSystem) (p : String) : FileSystem :=
  { fs with dirs := canon p :: fs.dirs }

/-- Model of `ShellJS.rm("-f", p)`: remove the file if present, never fail. -/
def rmFile (fs : FileSystem) (p : String) : FileSystem :=
  { fs with files := fs.files.filter (fun q => q != canon p) }

/-! ## Model of the external output sinks and configuration -/

/-- Modelled from the spec: the external `LogfileOutput` class
(`LogfileOutput.js`, not part of this repository's sources) is a writable
sink bound to an absolute file path; object identity matters because the
router swaps sink objects.  We model an instance as an identity tag plus the
bound path. -/
structure LogfileOutput where
  id : Nat
  path : String
deriving DecidableEq

/-- Modelled from the spec: constructing a `LogfileOutput` binds a fresh sink
to `p` and (re)creates an empty logfile at `p`. -/
def LogfileOutput.make (p : String) (fs : FileSystem) : LogfileOutput × FileSystem :=
  (⟨0, p⟩, { fs with files := canon p :: fs.files })

/-- Modelled from the spec: the external `TerminalOutput` singleton
(`TerminalOutput.js`), one instance per process. -/
structure TerminalOutput where
  id : Nat
deriving DecidableEq

/-- Modelled from the spec: `TerminalOutput.getInstance()`, the process-wide
terminal sink singleton. -/
def TerminalOutput.getInstance : TerminalOutput := ⟨0⟩

/-- Modelled from the spec: the external `OutputTee` fan-out writer
(`OutputTee.js`), holding a swappable logfile sink and the fixed terminal
sink.  `Application.js` reassigns its `logfileOutput` field. -/
structure OutputTee where
  logfileOutput : LogfileOutput
  terminalOutput : TerminalOutput
deriving DecidableEq

/-- Modelled from the spec: the external `Config` process-wide singleton
(`Config.js`), fetched lazily by the `config` getter. -/
structure Config where
  id : Nat
deriving DecidableEq

/-- Modelled from the spec: `Config.getInstance()`. -/
def Config.getInstance : Config := ⟨0⟩

/-! ## Errors

The JS code raises `InvalidPathException` and `IllegalAccessException`
(`util/exceptions.js`), and the external validator may raise for malformed
ids.  The spec's error taxonomy (§7) refines these into abstract kinds; the
constructor below thrown at the "path already exists" site of the create
branch is the kind the spec names `PathConflict` (in the JS source it is an
`InvalidPathException` carrying the "Failed to create project, path already
exists" message; we keep the exact message strings). -/
inductive AppError where
  | invalidPath (msg : String)
  | pathConflict (msg : String)
  | invalidPackageId (msg : String)
  | illegalAccess (msg : String)
deriving DecidableEq

/-! ## The Application object -/

/-- The state of a constructed `Application` instance: the identity and path
fields set by the constructor, the common logfile sink, the optional platform
override sink, and the output router. -/
structure Application where
  packageId : String
  rootPath : String
  appPath : String
  logPath : String
  pkgPath : String
  prjPath : String
  logfileOutput : LogfileOutput
  platformLogfileOutput : Option LogfileOutput
  output : OutputTee
deriving DecidableEq

/-- The five derived paths computed by `initMembers` in `Application.js`:
`rootPath = basePath + Path.sep + packageId` and the four children
`app`, `log`, `pkg`, `prj` as direct children of `rootPath`. -/
structure PathLayout where
  rootPath : String
  appPath : String
  logPath : String
  pkgPath : String
  prjPath : String
deriving DecidableEq

/-- Embedding of `initMembers(basePath)` from `Application.js` (with
`this._packageId` passed explicitly): pure string joining, no filesystem
access. -/
def initMembers (basePath packageId : String) : PathLayout :=
  { rootPath := basePath ++ sep ++ packageId
    appPath := basePath ++ sep ++ packageId ++ sep ++ "app"
    logPath := basePath ++ sep ++ packageId ++ sep ++ "log"
    pkgPath := basePath ++ sep ++ packageId ++ sep ++ "pkg"
    prjPath := basePath ++ sep ++ packageId ++ sep ++ "prj" }

/-- Model of `ShellJS.mkdir` applied to the five layout directories in the
order of `Application.js`: root, app, log, pkg, prj. -/
def scaffold (fs : FileSystem) (L : PathLayout) : FileSystem :=
  mkdir (mkdir (mkdir (mkdir (mkdir fs L.rootPath) L.appPath) L.logPath) L.pkgPath) L.prjPath

/-- Embedding of the tail of the constructor after either branch: the five
existence checks ("Failed to load, invalid path"), then the logging
bootstrap: `rm -f` on `logPath/common.log`, construction of the common
logfile sink, `platformLogfileOutput = null`, and the `OutputTee` over the
common sink and the terminal singleton. -/
def finishConstruct (pid : String) (L : PathLayout) (fs : FileSystem) :
    Except AppError Application × FileSystem :=
  if !testDir fs L.rootPath then
    (.error (.invalidPath ("Failed to load, invalid path: " ++ L.rootPath)), fs)
  else if !testDir fs L.appPath then
    (.error (.invalidPath ("Failed to load, invalid path: " ++ L.appPath)), fs)
  else if !testDir fs L.logPath then
    (.error (.invalidPath ("Failed to load, invalid path: " ++ L.logPath)), fs)
  else if !testDir fs L.pkgPath then
    (.error (.invalidPath ("Failed to load, invalid path: " ++ L.pkgPath)), fs)
  else if !testDir fs L.prjPath then
    (.error (.invalidPath ("Failed to load, invalid path: " ++ L.prjPath)), fs)
  else
    let logfilePath := pathJoin L.logPath "common.log"
    let fs1 := rmFile fs logfilePath
    let made := LogfileOutput.make logfilePath fs1
    (.ok { packageId := pid
           rootPath := L.rootPath
           appPath := L.appPath
           logPath := L.logPath
           pkgPath := L.pkgPath
           prjPath := L.prjPath
           logfileOutput := made.1
           platformLogfileOutput := none
           output := { logfileOutput := made.1
                       terminalOutput := TerminalOutput.getInstance } },
     made.2)

/-- Embedding of the create branch (`packageId` truthy): validate the id,
compute the layout from `cwd`, fail if `rootPath` already exists ("Failed to
create project, path already exists", the spec's `PathConflict` kind),
otherwise scaffold the five directories and continue with the common tail.
`v` is the external `CommandParser.validatePackageId`. -/
def createBranch (v : String → Except AppError String) (fs : FileSystem)
    (cwd pid : String) : Except AppError Application × FileSystem :=
  match v pid with
  | .error e => (.error e, fs)
  | .ok vpid =>
    if testDir fs (initMembers cwd vpid).rootPath then
      (.error (.pathConflict ("Failed to create project, path already exists: " ++
        (initMembers cwd vpid).rootPath)), fs)
    else
      finishConstruct vpid (initMembers cwd vpid) (scaffold fs (initMembers cwd vpid))

/-- Embedding of the load branch (no truthy `packageId`): derive the
candidate id as `Path.basename(cwd)`, validate it, fail with "Path does not
seem to be a project toplevel" when the validated id is falsy, then compute
the layout from `Path.dirname(cwd)` and continue with the common tail. -/
def loadBranch (v : String → Except AppError String) (fs : FileSystem)
    (cwd : String) : Except AppError Application × FileSystem :=
  match v (basename cwd) with
  | .error e => (.error e, fs)
  | .ok vpid =>
    if vpid = "" then
      (.error (.invalidPath ("Path does not seem to be a project toplevel: " ++ cwd)), fs)
    else
      finishConstruct vpid (initMembers (dirname cwd) vpid) fs

/-- Embedding of the `Application` constructor.  Arguments: the external
validator `v`, the process working directory `procCwd` (consulted by
`Path.resolve`), the filesystem state, the `cwd` argument, and the optional
`packageId` argument (`none` models an omitted argument; JS truthiness makes
`some ""` take the load branch as well).  Returns the raised error or the
constructed instance, paired with the filesystem state left behind. -/
def Application.construct (v : String → Except AppError String) (procCwd : String)
    (fs : FileSystem) (cwd : String) (packageId : Option String) :
    Except AppError Application × FileSystem :=
  if cwd = "" ∨ resolve procCwd cwd ≠ normalize cwd then
    (.error (.invalidPath ("Path not absolute: " ++ cwd)), fs)
  else if !testDir fs cwd then
    (.error (.invalidPath ("Path does not exist: " ++ cwd)), fs)
  else
    match packageId with
    | some pid => if pid = "" then loadBranch v fs cwd else createBranch v fs cwd pid
    | none => loadBranch v fs cwd

/-! ## Property accessors and setters -/

/-- The value assigned to a JS property in our model: a `LogfileOutput`
instance (`instanceof LogfileOutput` succeeds), JS `null`, or any other
value. -/
inductive SetterValue where
  | sink (lfo : LogfileOutput)
  | null
  | other
deriving DecidableEq

/-- Embedding of the `platformLogfileOutput` setter: a `LogfileOutput`
routes output to the platform logfile, `null` resets routing to the common
logfile captured at construction, anything else raises
`IllegalAccessException`. -/
def Application.setPlatformLogfileOutput (app : Application) (v : SetterValue) :
    Except AppError Application :=
  match v with
  | .sink lfo =>
    .ok { app with platformLogfileOutput := some lfo
                   output := { app.output with logfileOutput := lfo } }
  | .null =>
    .ok { app with platformLogfileOutput := none
                   output := { app.output with logfileOutput := app.logfileOutput } }
  | .other =>
    .error (.illegalAccess "Attempting invalid write to property Application.platformLogfileOutput")

/-- Embedding of the `output` setter: always raises
`IllegalAccessException`. -/
def Application.setOutput (app : Application) (v : SetterValue) :
    Except AppError Application :=
  .error (.illegalAccess "Attempting to write read-only property Application.output")

/-- Embedding of the `config` setter: always raises
`IllegalAccessException`. -/
def Application.setConfig (app : Application) (v : SetterValue) :
    Except AppError Application :=
  .error (.illegalAccess "Attempting to write read-only property Application.config")

/-- Embedding of the `config` getter: fetched from the process-wide
singleton on each access, not cached on the instance. -/
def Application.configGet (app : Application) : Config :=
  Config.getInstance

/-- The instance state visible after a setter invocation: the new state on
success, the unchanged prior state when the setter raised (a JS exception
leaves the object untouched). -/
def afterSet (app : Application) (r : Except AppError Application) : Application :=
  match r with
  | .ok a => a
  | .error _ => app

/-- One observable `platformLogfileOutput` setter call in a caller's call
sequence; a raising call leaves the state unchanged. -/
def setterStep (app : Application) (v : SetterValue) : Application :=
  afterSet app (Application.setPlatformLogfileOutput app v)

/-- A sequence of `platformLogfileOutput` setter calls. -/
def runSetters (app : Application) (vs : List SetterValue) : Application :=
  vs.foldl setterStep app

/-- Result-kind test: did construction raise the `InvalidPath` kind. -/
def isInvalidPath : Except AppError Application → Bool
  | .error (.invalidPath _) => true
  | _ => false

/-- Result test: did construction succeed. -/
def isOkResult : Except AppError Application → Bool
  | .ok _ => true
  | _ => false

/-- Modelled from the spec: a concrete instantiation of the external
package-id validator (`CommandParser.validatePackageId`, not part of this
repository's sources): it returns the validated id unchanged for the inputs
used in the concrete scenarios below. -/
def validateModel (s : String) : Except AppError String := .ok s

/-- Modelled from the spec: a validator instantiation that returns a falsy
(empty) validated id without raising, as the spec's validator contract
(`validate(candidate) -> validId | falsy`) allows. -/
def validateFalsyModel (s : String) : Except AppError String := .ok ""

/-- Decidable equality on construction results, so that concrete runs of the
embedded constructor can be checked by evaluation. -/
instance instDecEqExcept {ε α : Type} [DecidableEq ε] [DecidableEq α] :
    DecidableEq (Except ε α) := fun x y =>
  match x, y with
  | .ok a, .ok b =>
    if h : a = b then .isTrue (by rw [h]) else .isFalse (fun he => h (by injection he))
  | .error a, .error b =>
    if h : a = b then .isTrue (by rw [h]) else .isFalse (fun he => h (by injection he))
  | .ok _, .error _ => .isFalse (fun he => by injection he)
  | .error _, .ok _ => .isFalse (fun he => by injection he)

/-! ## Filesystem lemmas -/

theorem testDir_iff {fs : FileSystem} {p : String} :
    testDir fs p = true ↔ canon p ∈ fs.dirs := by
  simp [testDir]

theorem testDir_mkdir_self (fs : FileSystem) (p : String) :
    testDir (mkdir fs p) p = true := by
  simp [testDir, mkdir]

theorem testDir_mkdir_mono {fs : FileSystem} {p : String} (q : String)
    (h : testDir fs p = true) : testDir (mkdir fs q) p = true := by
  simp only [testDir, mkdir, decide_eq_true_eq, List.mem_cons] at h ⊢
  exact Or.inr h

theorem testDir_congr_dirs {fs g : FileSystem} (h : fs.dirs = g.dirs) (p : String) :
    testDir fs p = testDir g p := by
  simp [testDir, h]

theorem scaffold_files (fs : FileSystem) (L : PathLayout) :
    (scaffold fs L).files = fs.files := rfl

theorem scaffold_dirs_subset (fs : FileSystem) (L : PathLayout) :
    fs.dirs ⊆ (scaffold fs L).dirs := by
  intro x hx
  exact List.mem_cons_of_mem _ (List.mem_cons_of_mem _ (List.mem_cons_of_mem _
    (List.mem_cons_of_mem _ (List.mem_cons_of_mem _ hx))))

theorem testDir_scaffold_root (fs : FileSystem) (L : PathLayout) :
    testDir (scaffold fs L) L.rootPath = true :=
  testDir_mkdir_mono _ (testDir_mkdir_mono _ (testDir_mkdir_mono _ (testDir_mkdir_mono _
    (testDir_mkdir_self fs L.rootPath))))

theorem testDir_scaffold_mono {fs : FileSystem} {p : String} (L : PathLayout)
    (h : testDir fs p = true) : testDir (scaffold fs L) p = true :=
  testDir_mkdir_mono _ (testDir_mkdir_mono _ (testDir_mkdir_mono _ (testDir_mkdir_mono _
    (testDir_mkdir_mono _ h))))

/-! ## String and list helper lemmas -/

theorem string_data_append (a b : String) : (a ++ b).data = a.data ++ b.data := rfl

theorem string_mk_data (s : String) : String.mk s.data = s := rfl

theorem string_eq_empty_iff {s : String} : s = "" ↔ s.data = [] := by
  cases s with
  | mk l =>
    constructor
    · intro h
      rw [show String.mk l = "" from h]
    · intro h
      rw [show l = ([] : List Char) from h]

theorem concat_sep_data (b vpid : String) :
    (b ++ sep ++ vpid).data = b.data ++ '/' :: vpid.data := by
  rw [string_data_append, string_data_append, List.append_assoc]
  rfl

theorem concat_sep_ne_empty (b vpid : String) : b ++ sep ++ vpid ≠ "" := by
  intro h
  have h2 := string_eq_empty_iff.mp h
  rw [concat_sep_data] at h2
  simp at h2

theorem takeWhile_all_append {p : Char → Bool} {l t : List Char} {a : Char}
    (hl : ∀ x ∈ l, p x = true) (ha : p a = false) :
    (l ++ a :: t).takeWhile p = l := by
  induction l with
  | nil => simp [List.takeWhile_cons, ha]
  | cons x xs ih =>
    have hx := hl x (List.mem_cons_self x xs)
    rw [List.cons_append, List.takeWhile_cons, if_pos hx,
      ih (fun y hy => hl y (List.mem_cons_of_mem x hy))]

theorem dropWhile_all_append {p : Char → Bool} {l t : List Char} {a : Char}
    (hl : ∀ x ∈ l, p x = true) (ha : p a = false) :
    (l ++ a :: t).dropWhile p = a :: t := by
  induction l with
  | nil => simp [List.dropWhile_cons, ha]
  | cons x xs ih =>
    have hx := hl x (List.mem_cons_self x xs)
    rw [List.cons_append, List.dropWhile_cons, if_pos hx,
      ih (fun y hy => hl y (List.mem_cons_of_mem x hy))]

theorem reverse_concat_sep (b vpid : String) :
    (b ++ sep ++ vpid).data.reverse = vpid.data.reverse ++ '/' :: b.data.reverse := by
  rw [concat_sep_data, List.reverse_append, List.reverse_cons, List.append_assoc]
  rfl

theorem dropSlash_concat {bl vl : List Char} (hv : vl ≠ []) (hs : '/' ∉ vl) :
    (vl.reverse ++ '/' :: bl).dropWhile (fun c => c == '/') =
      vl.reverse ++ '/' :: bl := by
  have hvr : vl.reverse ≠ [] := by simpa using hv
  obtain ⟨c, cs, hrep⟩ := List.exists_cons_of_ne_nil hvr
  have hcmem : c ∈ vl := by
    rw [← List.mem_reverse, hrep]
    exact List.mem_cons_self c cs
  have hc : (c == '/') = false := by
    simp only [beq_eq_false_iff_ne, ne_eq]
    rintro rfl
    exact hs hcmem
  rw [hrep, List.cons_append, List.dropWhile_cons, if_neg (by simp [hc])]

theorem basename_core {bl vl : List Char} (hv : vl ≠ []) (hs : '/' ∉ vl) :
    ((vl.reverse ++ '/' :: bl).dropWhile (fun c => c == '/')).takeWhile
      (fun c => c != '/') = vl.reverse := by
  rw [dropSlash_concat hv hs]
  apply takeWhile_all_append
  · intro x hx
    have hxv : x ∈ vl := List.mem_reverse.mp hx
    simp only [bne_iff_ne, ne_eq]
    rintro rfl
    exact hs hxv
  · decide

theorem dirname_core {bl vl : List Char} (hv : vl ≠ []) (hs : '/' ∉ vl) :
    ((vl.reverse ++ '/' :: bl).dropWhile (fun c => c == '/')).dropWhile
      (fun c => c != '/') = '/' :: bl := by
  rw [dropSlash_concat hv hs]
  apply dropWhile_all_append
  · intro x hx
    have hxv : x ∈ vl := List.mem_reverse.mp hx
    simp only [bne_iff_ne, ne_eq]
    rintro rfl
    exact hs hxv
  · decide

theorem basename_concat {b vpid : String} (h1 : vpid ≠ "") (h2 : '/' ∉ vpid.data) :
    basename (b ++ sep ++ vpid) = vpid := by
  have hv : vpid.data ≠ [] := fun hh => h1 (string_eq_empty_iff.mpr hh)
  unfold basename
  rw [reverse_concat_sep, basename_core hv h2, List.reverse_reverse, string_mk_data]

theorem dirname_concat {b vpid : String} (hb1 : b ≠ "") (hb2 : b ≠ "/")
    (h1 : vpid ≠ "") (h2 : '/' ∉ vpid.data) :
    dirname (b ++ sep ++ vpid) = b := by
  have hv : vpid.data ≠ [] := fun hh => h1 (string_eq_empty_iff.mpr hh)
  have hb : b.data ≠ [] := fun hh => hb1 (string_eq_empty_iff.mpr hh)
  have hbr : b.data.reverse ≠ [] := by simpa using hb
  unfold dirname
  rw [if_neg (concat_sep_ne_empty b vpid), reverse_concat_sep,
    dirname_core hv h2]
  unfold dirnameAux
  have htail : (('/' :: b.data.reverse) : List Char).tail = b.data.reverse := rfl
  rw [if_neg (by simp), htail]
  rw [if_neg (by simp only [List.isEmpty_iff] ; simpa using hbr)]
  have hrest : b.data.reverse ≠ ['/'] := by
    intro hh
    apply hb2
    have hbd : b.data = ['/'] := by
      have h3 := congrArg List.reverse hh
      simpa using h3
    cases b with
    | mk l =>
      rw [show l = ['/'] from hbd]
  rw [if_neg (fun hand => hrest hand.2), List.reverse_reverse, string_mk_data]

/-! ## Constructor unfolding lemmas -/

theorem construct_guard1 {v : String → Except AppError String} {procCwd : String}
    {fs : FileSystem} {cwd : String} {pidOpt : Option String}
    (h : cwd = "" ∨ resolve procCwd cwd ≠ normalize cwd) :
    Application.construct v procCwd fs cwd pidOpt =
      (.error (.invalidPath ("Path not absolute: " ++ cwd)), fs) := by
  unfold Application.construct
  rw [if_pos h]

theorem construct_guard2 {v : String → Except AppError String} {procCwd : String}
    {fs : FileSystem} {cwd : String} {pidOpt : Option String}
    (h1 : ¬ (cwd = "" ∨ resolve procCwd cwd ≠ normalize cwd))
    (h2 : testDir fs cwd = false) :
    Application.construct v procCwd fs cwd pidOpt =
      (.error (.invalidPath ("Path does not exist: " ++ cwd)), fs) := by
  unfold Application.construct
  rw [if_neg h1, if_pos (by simp [h2])]

theorem construct_none {v : String → Except AppError String} {procCwd : String}
    {fs : FileSystem} {cwd : String}
    (h1 : ¬ (cwd = "" ∨ resolve procCwd cwd ≠ normalize cwd))
    (h2 : testDir fs cwd = true) :
    Application.construct v procCwd fs cwd none = loadBranch v fs cwd := by
  unfold Application.construct
  rw [if_neg h1, if_neg (by simp [h2])]

theorem construct_some {v : String → Except AppError String} {procCwd : String}
    {fs : FileSystem} {cwd pid : String}
    (h1 : ¬ (cwd = "" ∨ resolve procCwd cwd ≠ normalize cwd))
    (h2 : testDir fs cwd = true) (h3 : pid ≠ "") :
    Application.construct v procCwd fs cwd (some pid) = createBranch v fs cwd pid := by
  unfold Application.construct
  rw [if_neg h1, if_neg (by simp [h2])]
  exact if_neg h3

theorem construct_some_empty {v : String → Except AppError String} {procCwd : String}
    {fs : FileSystem} {cwd : String}
    (h1 : ¬ (cwd = "" ∨ resolve procCwd cwd ≠ normalize cwd))
    (h2 : testDir fs cwd = true) :
    Application.construct v procCwd fs cwd (some "") = loadBranch v fs cwd := by
  unfold Application.construct
  rw [if_neg h1, if_neg (by simp [h2])]
  exact if_pos rfl

theorem loadBranch_eq {v : String → Except AppError String} {fs : FileSystem}
    {cwd vpid : String} (hv : v (basename cwd) = .ok vpid) (hne : vpid ≠ "") :
    loadBranch v fs cwd = finishConstruct vpid (initMembers (dirname cwd) vpid) fs := by
  unfold loadBranch
  rw [hv]
  exact if_neg hne

theorem loadBranch_falsy {v : String → Except AppError String} {fs : FileSystem}
    {cwd : String} (hv : v (basename cwd) = .ok "") :
    loadBranch v fs cwd =
      (.error (.invalidPath ("Path does not seem to be a project toplevel: " ++ cwd)), fs) := by
  unfold loadBranch
  rw [hv]
  exact if_pos rfl

theorem createBranch_eq {v : String → Except AppError String} {fs : FileSystem}
    {cwd pid vpid : String} (hv : v pid = .ok vpid) :
    createBranch v fs cwd pid =
      if testDir fs (initMembers cwd vpid).rootPath then
        (.error (.pathConflict ("Failed to create project, path already exists: " ++
          (initMembers cwd vpid).rootPath)), fs)
      else
        finishConstruct vpid (initMembers cwd vpid) (scaffold fs (initMembers cwd vpid)) := by
  unfold createBranch
  rw [hv]

theorem finishConstruct_of_tests {pid : String} {L : PathLayout} {fs : FileSystem}
    (h1 : testDir fs L.rootPath = true) (h2 : testDir fs L.appPath = true)
    (h3 : testDir fs L.logPath = true) (h4 : testDir fs L.pkgPath = true)
    (h5 : testDir fs L.prjPath = true) :
    finishConstruct pid L fs =
      (.ok { packageId := pid
             rootPath := L.rootPath
             appPath := L.appPath
             logPath := L.logPath
             pkgPath := L.pkgPath
             prjPath := L.prjPath
             logfileOutput := ⟨0, pathJoin L.logPath "common.log"⟩
             platformLogfileOutput := none
             output := { logfileOutput := ⟨0, pathJoin L.logPath "common.log"⟩
                         terminalOutput := TerminalOutput.getInstance } },
       { dirs := fs.dirs
         files := canon (pathJoin L.logPath "common.log") ::
           fs.files.filter (fun q => q != canon (pathJoin L.logPath "common.log")) }) := by
  unfold finishConstruct
  rw [if_neg (by simp [h1]), if_neg (by simp [h2]), if_neg (by simp [h3]),
    if_neg (by simp [h4]), if_neg (by simp [h5])]
  rfl

theorem finishConstruct_ok {pid : String} {L : PathLayout} {fs : FileSystem}
    {app : Application} {fs' : FileSystem}
    (h : finishConstruct pid L fs = (.ok app, fs')) :
    testDir fs L.rootPath = true ∧ testDir fs L.appPath = true ∧
    testDir fs L.logPath = true ∧ testDir fs L.pkgPath = true ∧
    testDir fs L.prjPath = true ∧
    app = { packageId := pid
            rootPath := L.rootPath
            appPath := L.appPath
            logPath := L.logPath
            pkgPath := L.pkgPath
            prjPath := L.prjPath
            logfileOutput := ⟨0, pathJoin L.logPath "common.log"⟩
            platformLogfileOutput := none
            output := { logfileOutput := ⟨0, pathJoin L.logPath "common.log"⟩
                        terminalOutput := TerminalOutput.getInstance } } ∧
    fs' = { dirs := fs.dirs
            files := canon (pathJoin L.logPath "common.log") ::
              fs.files.filter (fun q => q != canon (pathJoin L.logPath "common.log")) } := by
  by_cases h1 : testDir fs L.rootPath = true
  case neg =>
    unfold finishConstruct at h
    rw [if_pos (by simp at h1 ⊢; exact h1)] at h
    exact absurd h (by simp)
  by_cases h2 : testDir fs L.appPath = true
  case neg =>
    unfold finishConstruct at h
    rw [if_neg (by simp [h1]), if_pos (by simp at h2 ⊢; exact h2)] at h
    exact absurd h (by simp)
  by_cases h3 : testDir fs L.logPath = true
  case neg =>
    unfold finishConstruct at h
    rw [if_neg (by simp [h1]), if_neg (by simp [h2]),
      if_pos (by simp at h3 ⊢; exact h3)] at h
    exact absurd h (by simp)
  by_cases h4 : testDir fs L.pkgPath = true
  case neg =>
    unfold finishConstruct at h
    rw [if_neg (by simp [h1]), if_neg (by simp [h2]), if_neg (by simp [h3]),
      if_pos (by simp at h4 ⊢; exact h4)] at h
    exact absurd h (by simp)
  by_cases h5 : testDir fs L.prjPath = true
  case neg =>
    unfold finishConstruct at h
    rw [if_neg (by simp [h1]), if_neg (by simp [h2]), if_neg (by simp [h3]),
      if_neg (by simp [h4]), if_pos (by simp at h5 ⊢; exact h5)] at h
    exact absurd h (by simp)
  rw [finishConstruct_of_tests h1 h2 h3 h4 h5] at h
  simp only [Prod.mk.injEq, Except.ok.injEq] at h
  exact ⟨h1, h2, h3, h4, h5, h.1.symm, h.2.symm⟩

theorem finishConstruct_err {pid : String} {L : PathLayout} {fs : FileSystem}
    (h : ¬ (testDir fs L.rootPath = true ∧ testDir fs L.appPath = true ∧
      testDir fs L.logPath = true ∧ testDir fs L.pkgPath = true ∧
      testDir fs L.prjPath = true)) :
    isInvalidPath (finishConstruct pid L fs).1 = true ∧ (finishConstruct pid L fs).2 = fs := by
  unfold finishConstruct
  by_cases h1 : testDir fs L.rootPath = true
  case neg =>
    rw [if_pos (by simp at h1 ⊢; exact h1)]
    exact ⟨rfl, rfl⟩
  by_cases h2 : testDir fs L.appPath = true
  case neg =>
    rw [if_neg (by simp [h1]), if_pos (by simp at h2 ⊢; exact h2)]
    exact ⟨rfl, rfl⟩
  by_cases h3 : testDir fs L.logPath = true
  case neg =>
    rw [if_neg (by simp [h1]), if_neg (by simp [h2]), if_pos (by simp at h3 ⊢; exact h3)]
    exact ⟨rfl, rfl⟩
  by_cases h4 : testDir fs L.pkgPath = true
  case neg =>
    rw [if_neg (by simp [h1]), if_neg (by simp [h2]), if_neg (by simp [h3]),
      if_pos (by simp at h4 ⊢; exact h4)]
    exact ⟨rfl, rfl⟩
  by_cases h5 : testDir fs L.prjPath = true
  case neg =>
    rw [if_neg (by simp [h1]), if_neg (by simp [h2]), if_neg (by simp [h3]),
      if_neg (by simp [h4]), if_pos (by simp at h5 ⊢; exact h5)]
    exact ⟨rfl, rfl⟩
  exact absurd ⟨h1, h2, h3, h4, h5⟩ h

theorem construct_guards_ok {v : String → Except AppError String} {procCwd : String}
    {fs : FileSystem} {cwd : String} {pidOpt : Option String}
    {app : Application} {fs' : FileSystem}
    (h : Application.construct v procCwd fs cwd pidOpt = (.ok app, fs')) :
    cwd ≠ "" ∧ resolve procCwd cwd = normalize cwd ∧ testDir fs cwd = true := by
  by_cases hg : cwd = "" ∨ resolve procCwd cwd ≠ normalize cwd
  · rw [construct_guard1 hg] at h
    exact absurd h (by simp)
  push_neg at hg
  by_cases ht : testDir fs cwd = true
  · exact ⟨hg.1, hg.2, ht⟩
  rw [construct_guard2 (by push_neg; exact hg) (by simpa using ht)] at h
  exact absurd h (by simp)

theorem loadBranch_ok_elim {v : String → Except AppError String} {fs : FileSystem}
    {cwd : String} {app : Application} {fs' : FileSystem}
    (h : loadBranch v fs cwd = (.ok app, fs')) :
    ∃ vpid, v (basename cwd) = .ok vpid ∧ vpid ≠ "" ∧
      finishConstruct vpid (initMembers (dirname cwd) vpid) fs = (.ok app, fs') := by
  unfold loadBranch at h
  split at h
  · exact absurd h (by simp)
  rename_i vpid hv
  split at h
  · exact absurd h (by simp)
  rename_i hne
  exact ⟨vpid, hv, hne, h⟩

theorem createBranch_ok_elim {v : String → Except AppError String} {fs : FileSystem}
    {cwd pid : String} {app : Application} {fs' : FileSystem}
    (h : createBranch v fs cwd pid = (.ok app, fs')) :
    ∃ vpid, v pid = .ok vpid ∧
      testDir fs (initMembers cwd vpid).rootPath = false ∧
      finishConstruct vpid (initMembers cwd vpid)
        (scaffold fs (initMembers cwd vpid)) = (.ok app, fs') := by
  unfold createBranch at h
  split at h
  · exact absurd h (by simp)
  rename_i vpid hv
  split at h
  · exact absurd h (by simp)
  rename_i hconf
  exact ⟨vpid, hv, by simpa using hconf, h⟩

theorem construct_ok_elim {v : String → Except AppError String} {procCwd : String}
    {fs : FileSystem} {cwd : String} {pidOpt : Option String}
    {app : Application} {fs' : FileSystem}
    (h : Application.construct v procCwd fs cwd pidOpt = (.ok app, fs')) :
    ∃ pid L fsMid, FileSystem.files fsMid = fs.files ∧ fs.dirs ⊆ fsMid.dirs ∧
      finishConstruct pid L fsMid = (.ok app, fs') := by
  obtain ⟨h1, h2, h3⟩ := construct_guards_ok h
  have hng : ¬ (cwd = "" ∨ resolve procCwd cwd ≠ normalize cwd) := by
    push_neg
    exact ⟨h1, h2⟩
  match pidOpt with
  | none =>
    rw [construct_none hng h3] at h
    obtain ⟨vpid, hv, hne, hfin⟩ := loadBranch_ok_elim h
    exact ⟨vpid, _, fs, rfl, fun x hx => hx, hfin⟩
  | some pid =>
    by_cases hp : pid = ""
    · subst hp
      rw [construct_some_empty hng h3] at h
      obtain ⟨vpid, hv, hne, hfin⟩ := loadBranch_ok_elim h
      exact ⟨vpid, _, fs, rfl, fun x hx => hx, hfin⟩
    · rw [construct_some hng h3 hp] at h
      obtain ⟨vpid, hv, hconf, hfin⟩ := createBranch_ok_elim h
      exact ⟨vpid, _, _, scaffold_files fs _, scaffold_dirs_subset fs _, hfin⟩

/-! ## Router invariant machinery -/

/-- The output-router invariant: the common logfile sink field is the sink
`common`, and the router's secondary sink is the common sink when no
platform override is set and the override sink otherwise. -/
def routerInv (common : LogfileOutput) (app : Application) : Prop :=
  app.logfileOutput = common ∧
  app.output.logfileOutput = (match app.platformLogfileOutput with
                              | none => common
                              | some s => s)

theorem routerInv_step {common : LogfileOutput} {app : Application}
    (h : routerInv common app) (v : SetterValue) :
    routerInv common (setterStep app v) := by
  obtain ⟨h1, h2⟩ := h
  cases v with
  | sink lfo => exact ⟨h1, rfl⟩
  | null =>
    refine ⟨h1, ?_⟩
    simp only [setterStep, afterSet, Application.setPlatformLogfileOutput]
    exact h1
  | other => exact ⟨h1, h2⟩

theorem routerInv_run {common : LogfileOutput} {app : Application}
    (h : routerInv common app) (vs : List SetterValue) :
    routerInv common (runSetters app vs) := by
  induction vs generalizing app with
  | nil => exact h
  | cons v vs ih => exact ih (routerInv_step h v)

theorem runSetters_append (app : Application) (vs ws : List SetterValue) :
    runSetters app (vs ++ ws) = runSetters (runSetters app vs) ws := by
  simp [runSetters, List.foldl_append]

/-! ## Concrete fixtures used by witnesses and counterexamples -/

/-- An initial filesystem containing just the base directory. -/
def fsW0 : FileSystem := ⟨["/work"], []⟩

/-- The instance produced by creating `com.example.foo` under `/work`. -/
def appW : Application :=
  { packageId := "com.example.foo"
    rootPath := "/work/com.example.foo"
    appPath := "/work/com.example.foo/app"
    logPath := "/work/com.example.foo/log"
    pkgPath := "/work/com.example.foo/pkg"
    prjPath := "/work/com.example.foo/prj"
    logfileOutput := ⟨0, "/work/com.example.foo/log/common.log"⟩
    platformLogfileOutput := none
    output := { logfileOutput := ⟨0, "/work/com.example.foo/log/common.log"⟩
                terminalOutput := ⟨0⟩ } }

/-- The filesystem left behind by creating `com.example.foo` under `/work`. -/
def fsW1 : FileSystem :=
  ⟨["/work/com.example.foo/prj", "/work/com.example.foo/pkg", "/work/com.example.foo/log",
    "/work/com.example.foo/app", "/work/com.example.foo", "/work"],
   ["/work/com.example.foo/log/common.log"]⟩

/-! ## Claim theorems -/

/-- C2: for every `basePath` and `packageId`, the path-layout computation
(`initMembers`) yields `rootPath = basePath ++ sep ++ packageId`, and
`appPath`, `logPath`, `pkgPath`, `prjPath` are exactly `rootPath` joined
with `"app"`, `"log"`, `"pkg"`, `"prj"` — each a direct child of `rootPath`,
with no other computation; `initMembers` is a pure function of its two
string arguments and performs no filesystem access. -/
theorem path_layout_deterministic (basePath packageId : String) :
    initMembers basePath packageId =
      { rootPath := basePath ++ sep ++ packageId
        appPath := basePath ++ sep ++ packageId ++ sep ++ "app"
        logPath := basePath ++ sep ++ packageId ++ sep ++ "log"
        pkgPath := basePath ++ sep ++ packageId ++ sep ++ "pkg"
        prjPath := basePath ++ sep ++ packageId ++ sep ++ "prj" } ∧
    (initMembers basePath packageId).rootPath = basePath ++ sep ++ packageId ∧
    (initMembers basePath packageId).appPath =
      (initMembers basePath packageId).rootPath ++ sep ++ "app" ∧
    (initMembers basePath packageId).logPath =
      (initMembers basePath packageId).rootPath ++ sep ++ "log" ∧
    (initMembers basePath packageId).pkgPath =
      (initMembers basePath packageId).rootPath ++ sep ++ "pkg" ∧
    (initMembers basePath packageId).prjPath =
      (initMembers basePath packageId).rootPath ++ sep ++ "prj" :=
  ⟨rfl, rfl, rfl, rfl, rfl, rfl⟩

/-- C7: any attempted write to the `output` property or the `config`
property raises `IllegalAccess`, and assigning `platformLogfileOutput` a
value that is neither a logfile sink nor null raises `IllegalAccess`; in all
three cases the observable state of the instance after the raise is the
prior state, unchanged. -/
theorem illegal_write_errors (app : Application) (v : SetterValue) :
    Application.setOutput app v =
      .error (.illegalAccess "Attempting to write read-only property Application.output") ∧
    Application.setConfig app v =
      .error (.illegalAccess "Attempting to write read-only property Application.config") ∧
    Application.setPlatformLogfileOutput app SetterValue.other =
      .error (.illegalAccess
        "Attempting invalid write to property Application.platformLogfileOutput") ∧
    afterSet app (Application.setOutput app v) = app ∧
    afterSet app (Application.setConfig app v) = app ∧
    afterSet app (Application.setPlatformLogfileOutput app SetterValue.other) = app :=
  ⟨rfl, rfl, rfl, rfl, rfl, rfl⟩

/-- C10: every successful invocation of the `platformLogfileOutput` setter
changes at most the `platformLogfileOutput` field and the router's secondary
(logfile) sink binding: the router's terminal sink, the common logfile sink
captured at construction, the `packageId`, and the five path fields are
unchanged. -/
theorem setter_frame (app : Application) (v : SetterValue) (app' : Application)
    (h : Application.setPlatformLogfileOutput app v = .ok app') :
    app'.packageId = app.packageId ∧ app'.rootPath = app.rootPath ∧
    app'.appPath = app.appPath ∧ app'.logPath = app.logPath ∧
    app'.pkgPath = app.pkgPath ∧ app'.prjPath = app.prjPath ∧
    app'.logfileOutput = app.logfileOutput ∧
    app'.output.terminalOutput = app.output.terminalOutput := by
  cases v with
  | sink lfo =>
    simp only [Application.setPlatformLogfileOutput, Except.ok.injEq] at h
    subst h
    exact ⟨rfl, rfl, rfl, rfl, rfl, rfl, rfl, rfl⟩
  | null =>
    simp only [Application.setPlatformLogfileOutput, Except.ok.injEq] at h
    subst h
    exact ⟨rfl, rfl, rfl, rfl, rfl, rfl, rfl, rfl⟩
  | other => exact absurd h (by simp [Application.setPlatformLogfileOutput])

/-- C10 witness: the frame property at a concrete instance and a concrete
`null` assignment. -/
theorem setter_frame_witness :
    appW.packageId = appW.packageId ∧ appW.rootPath = appW.rootPath ∧
    appW.appPath = appW.appPath ∧ appW.logPath = appW.logPath ∧
    appW.pkgPath = appW.pkgPath ∧ appW.prjPath = appW.prjPath ∧
    appW.logfileOutput = appW.logfileOutput ∧
    appW.output.terminalOutput = appW.output.terminalOutput :=
  setter_frame appW SetterValue.null appW (by decide)

/-- C6: starting from any successfully constructed instance, after any
sequence of `platformLogfileOutput` setter calls exactly one of the two
sinks is the router's secondary sink — the common logfile sink captured at
construction exactly when `platformLogfileOutput` is `none`, and the
platform sink exactly when it is set — and one further assignment of `null`
re-points the router's secondary sink to the very common-logfile sink object
created at construction. -/
theorem router_exclusivity (v : String → Except AppError String) (procCwd : String)
    (fs : FileSystem) (cwd : String) (pidOpt : Option String)
    (app₀ : Application) (fs' : FileSystem)
    (h : Application.construct v procCwd fs cwd pidOpt = (.ok app₀, fs'))
    (vs : List SetterValue) :
    ((runSetters app₀ vs).platformLogfileOutput = none →
      (runSetters app₀ vs).output.logfileOutput = app₀.logfileOutput) ∧
    (∀ s, (runSetters app₀ vs).platformLogfileOutput = some s →
      (runSetters app₀ vs).output.logfileOutput = s) ∧
    (setterStep (runSetters app₀ vs) SetterValue.null).output.logfileOutput =
      app₀.logfileOutput ∧
    (setterStep (runSetters app₀ vs) SetterValue.null).platformLogfileOutput = none := by
  have hinv0 : routerInv app₀.logfileOutput app₀ := by
    obtain ⟨pid, L, fsMid, hfiles, hdirs, hfin⟩ := construct_ok_elim h
    obtain ⟨_, _, _, _, _, happ, _⟩ := finishConstruct_ok hfin
    subst happ
    exact ⟨rfl, rfl⟩
  obtain ⟨ha, hb⟩ := routerInv_run hinv0 vs
  obtain ⟨hc, hd⟩ := routerInv_step (routerInv_run hinv0 vs) SetterValue.null
  refine ⟨fun hnone => ?_, fun s hs => ?_, ?_, ?_⟩
  · rw [hb, hnone]
  · rw [hb, hs]
  · have hplat : (setterStep (runSetters app₀ vs) SetterValue.null).platformLogfileOutput
        = none := rfl
    rw [hd, hplat]
  · rfl

/-- C1: in create mode, when the computed `rootPath` already exists as a
directory, construction fails with the `PathConflict` error kind and the
filesystem is returned untouched (no directory is created); and a second
create call with the same `basePath`/`packageId` after a successful first
one fails with `PathConflict` and leaves the filesystem produced by the
first call — including the directories it created — exactly as it was. -/
theorem create_second_time_path_conflict
    (v : String → Except AppError String) (procCwd : String) (fsA fsB : FileSystem)
    (cwd pid vpid : String) (app : Application) (fs₁ : FileSystem) :
    (cwd ≠ "" → resolve procCwd cwd = normalize cwd → testDir fsA cwd = true →
      pid ≠ "" → v pid = .ok vpid →
      testDir fsA (initMembers cwd vpid).rootPath = true →
      Application.construct v procCwd fsA cwd (some pid) =
        (.error (.pathConflict ("Failed to create project, path already exists: " ++
          (initMembers cwd vpid).rootPath)), fsA)) ∧
    (pid ≠ "" → v pid = .ok vpid →
      Application.construct v procCwd fsB cwd (some pid) = (.ok app, fs₁) →
      Application.construct v procCwd fs₁ cwd (some pid) =
        (.error (.pathConflict ("Failed to create project, path already exists: " ++
          (initMembers cwd vpid).rootPath)), fs₁)) := by
  constructor
  · intro h1 h2 h3 h4 h5 h6
    have hng : ¬ (cwd = "" ∨ resolve procCwd cwd ≠ normalize cwd) := by
      push_neg
      exact ⟨h1, h2⟩
    rw [construct_some hng h3 h4, createBranch_eq h5, if_pos h6]
  · intro h4 h5 hok
    obtain ⟨g1, g2, g3⟩ := construct_guards_ok hok
    have hng : ¬ (cwd = "" ∨ resolve procCwd cwd ≠ normalize cwd) := by
      push_neg
      exact ⟨g1, g2⟩
    rw [construct_some hng g3 h4, createBranch_eq h5] at hok
    by_cases hconf : testDir fsB (initMembers cwd vpid).rootPath = true
    · rw [if_pos hconf] at hok
      exact absurd hok (by simp)
    · rw [if_neg hconf] at hok
      obtain ⟨t1, t2, t3, t4, t5, happ, hfs⟩ := finishConstruct_ok hok
      have hdirs : fs₁.dirs = (scaffold fsB (initMembers cwd vpid)).dirs := by rw [hfs]
      have h3' : testDir fs₁ cwd = true := by
        rw [testDir_congr_dirs hdirs]
        exact testDir_scaffold_mono _ g3
      have hroot : testDir fs₁ (initMembers cwd vpid).rootPath = true := by
        rw [testDir_congr_dirs hdirs]
        exact testDir_scaffold_root fsB _
      rw [construct_some hng h3' h4, createBranch_eq h5, if_pos hroot]

/-- A filesystem in which the target root directory already exists, for the
C1 witness. -/
def fsConflict : FileSystem := ⟨["/work", "/work/com.example.foo"], []⟩

/-- C1 witness: both parts at concrete inputs — creating into an occupied
root fails with `PathConflict` leaving the filesystem untouched, and
repeating a successful creation fails with `PathConflict` leaving the
first call's directories untouched. -/
theorem create_second_time_path_conflict_witness :
    Application.construct validateModel "/" fsConflict "/work" (some "com.example.foo") =
      (.error (.pathConflict ("Failed to create project, path already exists: " ++
        (initMembers "/work" "com.example.foo").rootPath)), fsConflict) ∧
    Application.construct validateModel "/" fsW1 "/work" (some "com.example.foo") =
      (.error (.pathConflict ("Failed to create project, path already exists: " ++
        (initMembers "/work" "com.example.foo").rootPath)), fsW1) :=
  ⟨(create_second_time_path_conflict validateModel "/" fsConflict fsW0 "/work"
      "com.example.foo" "com.example.foo" appW fsW1).1 (by decide) (by decide) (by decide)
      (by decide) (by decide) (by decide),
   (create_second_time_path_conflict validateModel "/" fsConflict fsW0 "/work"
      "com.example.foo" "com.example.foo" appW fsW1).2 (by decide) (by decide) (by decide)⟩

/-- C4 counterexample: the claim says construction fails with `InvalidPath`
whenever `cwd` is not in normalized-absolute form (every non-canonical path
fails).  But the code compares `Path.resolve(cwd)` with
`Path.normalize(cwd)` (not the input with its normalized form), and the two
agree on absolute non-canonical paths: with `cwd = "/a/../com.example.foo"`
(which differs from its normalized form `"/com.example.foo"`) over a
filesystem holding a valid project at `/com.example.foo` and the
intermediate directory `/a` (so POSIX pathname resolution of every
component during `stat` succeeds), construction succeeds. -/
def fsC4 : FileSystem :=
  ⟨["/a", "/com.example.foo", "/com.example.foo/app", "/com.example.foo/log",
    "/com.example.foo/pkg", "/com.example.foo/prj"], []⟩

/-- C4 counterexample theorem: a non-canonical absolute `cwd` on which
construction succeeds instead of failing with `InvalidPath`. -/
theorem cwd_validation_counterexample :
    "/a/../com.example.foo" ≠ normalize "/a/../com.example.foo" ∧
    isOkResult (Application.construct validateModel "/" fsC4
      "/a/../com.example.foo" none).1 = true := by
  constructor
  · decide
  · decide

/-- C4 (amended): construction fails with `InvalidPath` — before either
branch runs, returning the filesystem untouched — whenever `cwd` is empty,
whenever `resolve procCwd cwd` differs from `normalize cwd` (which rejects
every relative path and every path whose normalized form keeps a trailing
separator, but accepts absolute non-canonical paths, on which resolve and
normalize agree), and whenever `cwd` does not exist as a directory. -/
theorem cwd_validation_invalid_path (v : String → Except AppError String)
    (procCwd : String) (fs : FileSystem) (cwd : String) (pidOpt : Option String)
    (h : cwd = "" ∨ resolve procCwd cwd ≠ normalize cwd ∨ testDir fs cwd = false) :
    isInvalidPath (Application.construct v procCwd fs cwd pidOpt).1 = true ∧
    (Application.construct v procCwd fs cwd pidOpt).2 = fs := by
  by_cases hg : cwd = "" ∨ resolve procCwd cwd ≠ normalize cwd
  · rw [construct_guard1 hg]
    exact ⟨rfl, rfl⟩
  · have h2 : testDir fs cwd = false := by
      rcases h with h | h | h
      · exact absurd (Or.inl h) hg
      · exact absurd (Or.inr h) hg
      · exact h
    rw [construct_guard2 hg h2]
    exact ⟨rfl, rfl⟩

/-- C4 witness: a relative path is rejected with `InvalidPath` and the
filesystem is untouched. -/
theorem cwd_validation_invalid_path_witness :
    isInvalidPath (Application.construct validateModel "/" fsW0 "rel/path" none).1 = true ∧
    (Application.construct validateModel "/" fsW0 "rel/path" none).2 = fsW0 :=
  cwd_validation_invalid_path validateModel "/" fsW0 "rel/path" none
    (Or.inr (Or.inl (by decide)))

/-- C5: after either construction branch all five computed paths are
re-validated: every successful construction leaves all five directories
present on the resulting filesystem, and in load mode a missing directory
among the five makes construction fail with `InvalidPath` (filesystem
untouched) rather than silently succeed. -/
theorem five_dirs_postcondition (v : String → Except AppError String)
    (procCwd : String) (fsA fsB : FileSystem) (cwdA cwdB : String)
    (pidOpt : Option String) (vpid : String) (app : Application) (fs' : FileSystem) :
    (Application.construct v procCwd fsA cwdA pidOpt = (.ok app, fs') →
      testDir fs' app.rootPath = true ∧ testDir fs' app.appPath = true ∧
      testDir fs' app.logPath = true ∧ testDir fs' app.pkgPath = true ∧
      testDir fs' app.prjPath = true) ∧
    (cwdB ≠ "" → resolve procCwd cwdB = normalize cwdB → testDir fsB cwdB = true →
      v (basename cwdB) = .ok vpid → vpid ≠ "" →
      ¬ (testDir fsB (initMembers (dirname cwdB) vpid).rootPath = true ∧
         testDir fsB (initMembers (dirname cwdB) vpid).appPath = true ∧
         testDir fsB (initMembers (dirname cwdB) vpid).logPath = true ∧
         testDir fsB (initMembers (dirname cwdB) vpid).pkgPath = true ∧
         testDir fsB (initMembers (dirname cwdB) vpid).prjPath = true) →
      isInvalidPath (Application.construct v procCwd fsB cwdB none).1 = true ∧
      (Application.construct v procCwd fsB cwdB none).2 = fsB) := by
  constructor
  · intro h
    obtain ⟨pid, L, fsMid, hfiles, hdirs, hfin⟩ := construct_ok_elim h
    obtain ⟨t1, t2, t3, t4, t5, happ, hfs⟩ := finishConstruct_ok hfin
    have hd : fs'.dirs = fsMid.dirs := by rw [hfs]
    subst happ
    refine ⟨?_, ?_, ?_, ?_, ?_⟩
    · rw [testDir_congr_dirs hd]
      exact t1
    · rw [testDir_congr_dirs hd]
      exact t2
    · rw [testDir_congr_dirs hd]
      exact t3
    · rw [testDir_congr_dirs hd]
      exact t4
    · rw [testDir_congr_dirs hd]
      exact t5
  · intro h1 h2 h3 h4 h5 h6
    have hng : ¬ (cwdB = "" ∨ resolve procCwd cwdB ≠ normalize cwdB) := by
      push_neg
      exact ⟨h1, h2⟩
    rw [construct_none hng h3, loadBranch_eq h4 h5]
    exact finishConstruct_err h6

/-- The project filesystem with the `app` child directory missing, for the
C5 witness. -/
def fsMissing : FileSystem :=
  ⟨["/work/com.example.foo/prj", "/work/com.example.foo/pkg", "/work/com.example.foo/log",
    "/work/com.example.foo", "/work"], []⟩

/-- C5 witness: a concrete successful load leaves all five directories
present, and loading the same project with its `app` directory removed
fails with `InvalidPath`, filesystem untouched. -/
theorem five_dirs_postcondition_witness :
    (testDir fsW1 appW.rootPath = true ∧ testDir fsW1 appW.appPath = true ∧
      testDir fsW1 appW.logPath = true ∧ testDir fsW1 appW.pkgPath = true ∧
      testDir fsW1 appW.prjPath = true) ∧
    (isInvalidPath (Application.construct validateModel "/" fsMissing
        "/work/com.example.foo" none).1 = true ∧
      (Application.construct validateModel "/" fsMissing
        "/work/com.example.foo" none).2 = fsMissing) :=
  ⟨(five_dirs_postcondition validateModel "/" fsW1 fsMissing "/work/com.example.foo"
      "/work/com.example.foo" none "com.example.foo" appW fsW1).1 (by decide),
   (five_dirs_postcondition validateModel "/" fsW1 fsMissing "/work/com.example.foo"
      "/work/com.example.foo" none "com.example.foo" appW fsW1).2 (by decide) (by decide)
      (by decide) (by decide) (by decide) (by decide)⟩

/-- C8: at the end of every successful construction the file
`logPath/common.log` has been unconditionally removed (any prior occurrence
is filtered out of the resulting filesystem) and a fresh common logfile sink
bound to that path has recreated it; the router holds this common sink as
its secondary sink and the process-wide terminal singleton as its primary
sink; and `platformLogfileOutput` is `null`. -/
theorem logging_bootstrap (v : String → Except AppError String) (procCwd : String)
    (fs : FileSystem) (cwd : String) (pidOpt : Option String)
    (app : Application) (fs' : FileSystem)
    (h : Application.construct v procCwd fs cwd pidOpt = (.ok app, fs')) :
    app.platformLogfileOutput = none ∧
    app.logfileOutput = ⟨0, pathJoin app.logPath "common.log"⟩ ∧
    app.output.logfileOutput = app.logfileOutput ∧
    app.output.terminalOutput = TerminalOutput.getInstance ∧
    fs'.files = canon (pathJoin app.logPath "common.log") ::
      fs.files.filter (fun q => q != canon (pathJoin app.logPath "common.log")) := by
  obtain ⟨pid, L, fsMid, hfiles, hdirs, hfin⟩ := construct_ok_elim h
  obtain ⟨t1, t2, t3, t4, t5, happ, hfs⟩ := finishConstruct_ok hfin
  subst happ
  refine ⟨rfl, rfl, rfl, rfl, ?_⟩
  rw [hfs, hfiles]

/-- C8 witness: the logging bootstrap facts at a concrete successful load. -/
theorem logging_bootstrap_witness :
    appW.platformLogfileOutput = none ∧
    appW.logfileOutput = ⟨0, pathJoin appW.logPath "common.log"⟩ ∧
    appW.output.logfileOutput = appW.logfileOutput ∧
    appW.output.terminalOutput = TerminalOutput.getInstance ∧
    fsW1.files = canon (pathJoin appW.logPath "common.log") ::
      fsW1.files.filter (fun q => q != canon (pathJoin appW.logPath "common.log")) :=
  logging_bootstrap validateModel "/" fsW1 "/work/com.example.foo" none appW fsW1
    (by decide)

/-- C9 (implicit): the falsy-result check on the external validator exists
only in load mode — there, a falsy validated id fails with `InvalidPath`
("not a project toplevel"); in create mode a falsy validated id does not
fail at that step: construction proceeds into the create branch, computes
the layout with the falsy (empty) packageId, and continues into the
root-conflict check and the scaffolding calls of that branch. -/
theorem create_mode_no_falsy_check (v : String → Except AppError String)
    (procCwd : String) (fs : FileSystem) (cwd pid : String)
    (h1 : cwd ≠ "") (h2 : resolve procCwd cwd = normalize cwd)
    (h3 : testDir fs cwd = true) (h4 : pid ≠ "") (h5 : v pid = .ok "")
    (h6 : v (basename cwd) = .ok "") :
    Application.construct v procCwd fs cwd none =
      (.error (.invalidPath ("Path does not seem to be a project toplevel: " ++ cwd)), fs) ∧
    Application.construct v procCwd fs cwd (some pid) = createBranch v fs cwd pid ∧
    (testDir fs (initMembers cwd "").rootPath = true →
      Application.construct v procCwd fs cwd (some pid) =
        (.error (.pathConflict ("Failed to create project, path already exists: " ++
          (initMembers cwd "").rootPath)), fs)) ∧
    (testDir fs (initMembers cwd "").rootPath = false →
      Application.construct v procCwd fs cwd (some pid) =
        finishConstruct "" (initMembers cwd "") (scaffold fs (initMembers cwd ""))) := by
  have hng : ¬ (cwd = "" ∨ resolve procCwd cwd ≠ normalize cwd) := by
    push_neg
    exact ⟨h1, h2⟩
  refine ⟨?_, ?_, ?_, ?_⟩
  · rw [construct_none hng h3, loadBranch_falsy h6]
  · exact construct_some hng h3 h4
  · intro hconf
    rw [construct_some hng h3 h4, createBranch_eq h5, if_pos hconf]
  · intro hconf
    rw [construct_some hng h3 h4, createBranch_eq h5, if_neg (by simp [hconf])]

/-- C9 witness: with a validator returning a falsy id, load mode fails with
`InvalidPath` while create mode proceeds into the create branch (and, here,
hits the root-conflict check with the degenerate `cwd + sep` root). -/
theorem create_mode_no_falsy_check_witness :
    Application.construct validateFalsyModel "/" fsW0 "/work" none =
      (.error (.invalidPath ("Path does not seem to be a project toplevel: " ++ "/work")),
        fsW0) ∧
    Application.construct validateFalsyModel "/" fsW0 "/work" (some "x") =
      createBranch validateFalsyModel fsW0 "/work" "x" ∧
    (testDir fsW0 (initMembers "/work" "").rootPath = true →
      Application.construct validateFalsyModel "/" fsW0 "/work" (some "x") =
        (.error (.pathConflict ("Failed to create project, path already exists: " ++
          (initMembers "/work" "").rootPath)), fsW0)) ∧
    (testDir fsW0 (initMembers "/work" "").rootPath = false →
      Application.construct validateFalsyModel "/" fsW0 "/work" (some "x") =
        finishConstruct "" (initMembers "/work" "") (scaffold fsW0 (initMembers "/work" ""))) :=
  create_mode_no_falsy_check validateFalsyModel "/" fsW0 "/work" "x"
    (by decide) (by decide) (by decide) (by decide) (by decide) (by decide)

/-- C3: round-trip between the two construction modes — if a project was
created with base directory `base` and identifier `id` (so its root is
`base/id`), then constructing with `cwd = rootPath` and no packageId
derives the same packageId (the basename of `cwd`, validated by the
external validator) and computes the same five paths, using the parent
(dirname) of `cwd` as the base, as the original creation. -/
theorem create_load_roundtrip (v : String → Except AppError String)
    (procCwd : String) (fs₀ : FileSystem) (base id : String)
    (app₁ : Application) (fs₁ : FileSystem)
    (hcreate : Application.construct v procCwd fs₀ base (some id) = (.ok app₁, fs₁))
    (hid : id ≠ "")
    (hvid : v app₁.packageId = .ok app₁.packageId)
    (hpne : app₁.packageId ≠ "") (hps : '/' ∉ app₁.packageId.data)
    (hb1 : base ≠ "") (hb2 : base ≠ "/")
    (hnorm : resolve procCwd app₁.rootPath = normalize app₁.rootPath) :
    app₁.rootPath = base ++ sep ++ app₁.packageId ∧
    basename app₁.rootPath = app₁.packageId ∧
    dirname app₁.rootPath = base ∧
    (Application.construct v procCwd fs₁ app₁.rootPath none).1.map
        (fun a => (a.packageId, a.rootPath, a.appPath, a.logPath, a.pkgPath, a.prjPath)) =
      Except.ok (app₁.packageId, app₁.rootPath, app₁.appPath, app₁.logPath,
        app₁.pkgPath, app₁.prjPath) := by
  obtain ⟨g1, g2, g3⟩ := construct_guards_ok hcreate
  have hng : ¬ (base = "" ∨ resolve procCwd base ≠ normalize base) := by
    push_neg
    exact ⟨g1, g2⟩
  rw [construct_some hng g3 hid] at hcreate
  obtain ⟨vpid, hv, hconf, hfin⟩ := createBranch_ok_elim hcreate
  obtain ⟨t1, t2, t3, t4, t5, happ, hfs⟩ := finishConstruct_ok hfin
  have hpid : app₁.packageId = vpid := by rw [happ]
  have hrootD : app₁.rootPath = base ++ sep ++ vpid := by
    rw [happ]
    rfl
  have e3 : app₁.appPath = (initMembers base vpid).appPath := by rw [happ]
  have e4 : app₁.logPath = (initMembers base vpid).logPath := by rw [happ]
  have e5 : app₁.pkgPath = (initMembers base vpid).pkgPath := by rw [happ]
  have e6 : app₁.prjPath = (initMembers base vpid).prjPath := by rw [happ]
  rw [hpid] at hvid hpne hps
  rw [hrootD] at hnorm
  have hdirs1 : fs₁.dirs = (scaffold fs₀ (initMembers base vpid)).dirs := by rw [hfs]
  refine ⟨by rw [hrootD, hpid], ?_, ?_, ?_⟩
  · rw [hrootD, hpid]
    exact basename_concat hpne hps
  · rw [hrootD]
    exact dirname_concat hb1 hb2 hpne hps
  · have hcwdne := concat_sep_ne_empty base vpid
    have hng' : ¬ (base ++ sep ++ vpid = "" ∨
        resolve procCwd (base ++ sep ++ vpid) ≠ normalize (base ++ sep ++ vpid)) := by
      push_neg
      exact ⟨hcwdne, hnorm⟩
    have h3' : testDir fs₁ (base ++ sep ++ vpid) = true := by
      rw [testDir_congr_dirs hdirs1]
      exact testDir_scaffold_root fs₀ (initMembers base vpid)
    have hv' : v (basename (base ++ sep ++ vpid)) = .ok vpid := by
      rw [basename_concat hpne hps]
      exact hvid
    have T1 : testDir fs₁ (initMembers base vpid).rootPath = true := by
      rw [testDir_congr_dirs hdirs1]
      exact t1
    have T2 : testDir fs₁ (initMembers base vpid).appPath = true := by
      rw [testDir_congr_dirs hdirs1]
      exact t2
    have T3 : testDir fs₁ (initMembers base vpid).logPath = true := by
      rw [testDir_congr_dirs hdirs1]
      exact t3
    have T4 : testDir fs₁ (initMembers base vpid).pkgPath = true := by
      rw [testDir_congr_dirs hdirs1]
      exact t4
    have T5 : testDir fs₁ (initMembers base vpid).prjPath = true := by
      rw [testDir_congr_dirs hdirs1]
      exact t5
    rw [hrootD, hpid, e3, e4, e5, e6, construct_none hng' h3',
      loadBranch_eq hv' hpne, dirname_concat hb1 hb2 hpne hps,
      finishConstruct_of_tests T1 T2 T3 T4 T5]
    rfl

/-- C3 witness: the round-trip at a concrete creation of `com.example.foo`
under `/work` followed by a load from `/work/com.example.foo`. -/
theorem create_load_roundtrip_witness :
    appW.rootPath = "/work" ++ sep ++ appW.packageId ∧
    basename appW.rootPath = appW.packageId ∧
    dirname appW.rootPath = "/work" ∧
    (Application.construct validateModel "/" fsW1 appW.rootPath none).1.map
        (fun a => (a.packageId, a.rootPath, a.appPath, a.logPath, a.pkgPath, a.prjPath)) =
      Except.ok (appW.packageId, appW.rootPath, appW.appPath, appW.logPath,
        appW.pkgPath, appW.prjPath) :=
  create_load_roundtrip validateModel "/" fsW0 "/work" "com.example.foo" appW fsW1
    (by decide) (by decide) (by decide) (by decide) (by decide) (by decide) (by decide)
    (by decide)

/-- C6 witness: the exclusivity and restore property at a concrete
construction and a concrete one-setter history. -/
theorem router_exclusivity_witness :
    ((runSetters appW [SetterValue.sink ⟨1, "/p.log"⟩]).platformLogfileOutput = none →
      (runSetters appW [SetterValue.sink ⟨1, "/p.log"⟩]).output.logfileOutput =
        appW.logfileOutput) ∧
    (∀ s, (runSetters appW [SetterValue.sink ⟨1, "/p.log"⟩]).platformLogfileOutput = some s →
      (runSetters appW [SetterValue.sink ⟨1, "/p.log"⟩]).output.logfileOutput = s) ∧
    (setterStep (runSetters appW [SetterValue.sink ⟨1, "/p.log"⟩])
      SetterValue.null).output.logfileOutput = appW.logfileOutput ∧
    (setterStep (runSetters appW [SetterValue.sink ⟨1, "/p.log"⟩])
      SetterValue.null).platformLogfileOutput = none :=
  router_exclusivity validateModel "/" fsW0 "/work" (some "com.example.foo") appW fsW1
    (by decide) [SetterValue.sink ⟨1, "/p.log"⟩]

end CrosswalkApp
